import Mathlib

/-!
# Public usage endpoint of sub2api

A verification development for `backend/internal/handler/public_handler.go`
(`PublicHandler.Usage`).  The handler is embedded as a pure function that
returns the ordered list of observable actions of one request: the calls it
makes to the key-lookup service and to the usage aggregator, and the responses
it writes.

The definitions come first:

* `time`: the part of Go's standard `time` package the handler relies on
  (`Time`, `Location`, `Date`, `Add`, `AddDate`, parsing of the layout
  `2006-01-02`);
* `gin`, `service`, `response`, `timezone`: the collaborators of the handler;
* `handler`: the handler itself;
* `sample`: concrete collaborators and requests on which the theorems are
  instantiated.

The theorems follow: the calendar arithmetic of `time`, then the behaviour of
the handler.

Go's fixed-width integers are modelled by unbounded integers.  Go's `time`
computes on `int64` and `uint64` seconds counted from an epoch about 292
billion years in the past, so for every date with a four-digit year and for
the current time no value leaves the range of its type, apart from the
intended wrap-around of `uint64(day - 1)`, which addition undoes.  Go's `/` and
`%` are applied to non-negative numbers only, where they agree with the
division and remainder of Lean.
-/

set_option autoImplicit false

namespace Sub2api

deriving instance DecidableEq for Except

/-! ## Go `time` -/

namespace time

/-- A Go `error` value, reduced to its message. -/
structure GoError where
  msg : String
deriving DecidableEq, Repr

/-- Go `time.Duration`: a count of nanoseconds. -/
abbrev Duration := Int

def Nanosecond : Duration := 1
def Second : Duration := 1000000000
def Minute : Duration := 60 * Second
def Hour : Duration := 60 * Minute

def secondsPerMinute : Int := 60
def secondsPerHour : Int := 60 * secondsPerMinute
def secondsPerDay : Int := 24 * secondsPerHour
def daysPer400Years : Int := 365 * 400 + 97
def daysPer100Years : Int := 365 * 100 + 24
def daysPer4Years : Int := 365 * 4 + 1

/-- Go `absoluteZeroYear`: the year in which the absolute epoch starts. -/
def absoluteZeroYear : Int := -292277022399

/-- Go `unixToInternal + internalToAbsolute`: seconds from the absolute epoch
to the Unix epoch. -/
def unixToAbsolute : Int := 62135596800 + 9223371966579724800

/-- Go `alpha`, the beginning of time for zone lookups. -/
def alpha : Int := -9223372036854775808

/-- Go `omega`, the end of time for zone lookups. -/
def omega : Int := 9223372036854775807

/-- Go `zoneTrans`: a transition instant (Unix seconds) together with the
offset, in seconds east of UTC, of the zone that starts there.  Go stores an
index into the zone table; the offset found at that index is stored here. -/
structure zoneTrans where
  when : Int
  offset : Int
deriving DecidableEq, Repr

/-- Go `time.Location` given by an explicit transition table: `offset` is the
offset of the zone in effect before the first transition (`lookupFirstZone`),
`tx` the transitions in increasing order of `when`.  A location without
transitions is a fixed-offset zone; UTC is `⟨"UTC", 0, []⟩`.  The rule that Go
applies beyond the last transition (`extend`) is not modelled: the transitions
it stands for are listed in `tx`. -/
structure Location where
  name : String
  offset : Int
  tx : List zoneTrans
deriving DecidableEq, Repr

def UTC : Location := ⟨"UTC", 0, []⟩

/-- The search of `Location.lookup`: `off` and `start` describe the zone in
effect at the entries already passed; the result is (offset, start, end) of
the zone in effect at `sec`, i.e. of the entry with the largest `when ≤ sec`.
Go finds that entry by binary search. -/
def lookupTx (sec : Int) (off start : Int) : List zoneTrans → Int × Int × Int
  | [] => (off, start, omega)
  | t :: rest =>
    if sec < t.when then (off, start, t.when)
    else lookupTx sec t.offset t.when rest

/-- Go `(*Location).lookup`: offset, start and end of the zone in effect at
the instant `sec` (Unix seconds). -/
def Location.lookup (l : Location) (sec : Int) : Int × Int × Int :=
  lookupTx sec l.offset alpha l.tx

/-- Go `daysBefore`: `daysBefore[m]` is the number of days in a non-leap year
before month `m+1`. -/
def daysBefore : List Int :=
  [0, 31, 59, 90, 120, 151, 181, 212, 243, 273, 304, 334, 365]

/-- Index into `daysBefore`. -/
def daysBeforeAt (i : Int) : Int := daysBefore.getD i.toNat 0

/-- Go `isLeap`. -/
def isLeap (year : Int) : Bool :=
  year % 4 == 0 && (year % 100 != 0 || year % 400 == 0)

/-- Go `daysIn`: number of days in the month of the year. -/
def daysIn (m : Int) (year : Int) : Int :=
  if m == 2 && isLeap year then 29
  else daysBeforeAt m - daysBeforeAt (m - 1)

/-- Go `norm`: `(nhi, nlo)` with `hi * base + lo = nhi * base + nlo` and
`0 ≤ nlo < base`.  The divisions are applied to non-negative numbers only. -/
def norm (hi lo base : Int) : Int × Int :=
  let (hi, lo) :=
    if lo < 0 then
      let n := (-lo - 1) / base + 1
      (hi - n, lo + n * base)
    else (hi, lo)
  if lo ≥ base then
    let n := lo / base
    (hi + n, lo - n * base)
  else (hi, lo)

/-- Go `daysSinceEpoch`: days from the absolute epoch to the start of `year`. -/
def daysSinceEpoch (year : Int) : Int :=
  let y := year - absoluteZeroYear
  -- Add in days from 400-year cycles.
  let n := y / 400
  let y := y - 400 * n
  let d := daysPer400Years * n
  -- Add in 100-year cycles.
  let n := y / 100
  let y := y - 100 * n
  let d := d + daysPer100Years * n
  -- Add in 4-year cycles.
  let n := y / 4
  let y := y - 4 * n
  let d := d + daysPer4Years * n
  -- Add in non-leap years.
  let n := y
  d + 365 * n

/-- Month and day of the month of Go `absDate`, from the leap flag and the
zero-based day of the year. -/
def absMonthDay (leap : Bool) (yday : Int) : Int × Int :=
  if leap && yday == 31 + 29 - 1 then
    -- Leap day.
    (2, 29)
  else
    -- After leap day; pretend it wasn't there.
    let day := if leap && yday > 31 + 29 - 1 then yday - 1 else yday
    -- Estimate month on assumption that every month has 31 days.
    -- The estimate may be too low by at most one month, so adjust.
    let month := day / 31
    let stop := daysBeforeAt (month + 1)
    if day ≥ stop then (month + 1 + 1, day - stop + 1)
    else (month + 1, day - daysBeforeAt month + 1)

/-- Year and zero-based day of the year of Go `absDate`, from the number of
days since the absolute epoch. -/
def absYearDay (d : Int) : Int × Int :=
  -- Account for 400 year cycles.
  let n := d / daysPer400Years
  let y := 400 * n
  let d := d - daysPer400Years * n
  -- Cut off 100-year cycles; the last cycle has one extra leap year.
  let n := d / daysPer100Years
  let n := n - n / 4
  let y := y + 100 * n
  let d := d - daysPer100Years * n
  -- Cut off 4-year cycles.
  let n := d / daysPer4Years
  let y := y + 4 * n
  let d := d - daysPer4Years * n
  -- Cut off years within a 4-year cycle.
  let n := d / 365
  let n := n - n / 4
  let y := y + n
  let d := d - 365 * n
  (y + absoluteZeroYear, d)

/-- Go `absDate` with `full = true`: (year, month, day) of the absolute time
`abs` (seconds since the absolute epoch). -/
def absDate (abs : Int) : Int × Int × Int :=
  let (year, yday) := absYearDay (abs / secondsPerDay)
  let (month, day) := absMonthDay (isLeap year) yday
  (year, month, day)

/-- Go `absClock`: (hour, minute, second) within the day of `abs`. -/
def absClock (abs : Int) : Int × Int × Int :=
  let sec := abs % secondsPerDay
  let hour := sec / secondsPerHour
  let sec := sec - hour * secondsPerHour
  let min := sec / secondsPerMinute
  let sec := sec - min * secondsPerMinute
  (hour, min, sec)

/-- Go `time.Time`: an instant, as nanoseconds since the Unix epoch, with the
location it is presented in.  Go keeps whole seconds and the nanosecond within
the second in separate fields; the pair `(sec, nsec)` with `0 ≤ nsec < 10^9` is
the number `sec * 10^9 + nsec` here.  The monotonic clock reading is dropped,
as `Time.In` and `Date` do. -/
structure Time where
  unixNano : Int
  loc : Location
deriving DecidableEq, Repr

/-- Go `(Time).unixSec`. -/
def Time.unixSec (t : Time) : Int := t.unixNano / 1000000000

/-- Go `(Time).nsec`: nanosecond within the second. -/
def Time.nsec (t : Time) : Int := t.unixNano % 1000000000

/-- Go `unixTime` followed by `setLoc`. -/
def unixTime (sec nsec : Int) (loc : Location) : Time :=
  ⟨sec * 1000000000 + nsec, loc⟩

/-- Go `(Time).abs`: seconds since the absolute epoch of the wall clock
reading of `t` in its location. -/
def Time.abs (t : Time) : Int :=
  let sec := t.unixSec
  let (offset, _, _) := t.loc.lookup sec
  sec + offset + unixToAbsolute

/-- Go `(Time).Date`. -/
def Time.Date (t : Time) : Int × Int × Int := absDate t.abs

/-- Go `(Time).Clock`. -/
def Time.Clock (t : Time) : Int × Int × Int := absClock t.abs

/-- Go `(Time).In`. -/
def Time.In (t : Time) (loc : Location) : Time := { t with loc := loc }

/-- Go `(Time).Add`. -/
def Time.Add (t : Time) (d : Duration) : Time :=
  { t with unixNano := t.unixNano + d }

/-- Go `(Time).After`. -/
def Time.After (t u : Time) : Bool := decide (u.unixNano < t.unixNano)

/-- Go `time.Date`. -/
def Date (year month day hour min sec nsec : Int) (loc : Location) : Time :=
  -- Normalize month, overflowing into year.
  let m := month - 1
  let (year, m) := norm year m 12
  let month := m + 1
  -- Normalize nsec, sec, min, hour, overflowing into day.
  let (sec, nsec) := norm sec nsec 1000000000
  let (min, sec) := norm min sec 60
  let (hour, min) := norm hour min 60
  let (day, hour) := norm day hour 24
  -- Compute days since the absolute epoch.
  let d := daysSinceEpoch year
  -- Add in days before this month.
  let d := d + daysBeforeAt (month - 1)
  let d := if isLeap year && month ≥ 3 then d + 1 else d
  -- Add in days before today.
  let d := d + (day - 1)
  -- Add in time elapsed today.
  let abs := d * secondsPerDay
  let abs := abs + (hour * secondsPerHour + min * secondsPerMinute + sec)
  let unix := abs - unixToAbsolute
  -- Look for zone offset for expected time, so we can adjust to UTC.
  let (offset, start, stop) := loc.lookup unix
  let unix :=
    if offset ≠ 0 then
      let utc := unix - offset
      -- If utc is valid for the time zone we found, then we have the right
      -- offset.  If not, we get the correct offset by looking up utc.
      let offset :=
        if utc < start ∨ utc ≥ stop then (loc.lookup utc).1 else offset
      unix - offset
    else unix
  unixTime unix nsec loc

/-- Go `(Time).AddDate`. -/
def Time.AddDate (t : Time) (years months days : Int) : Time :=
  let (year, month, day) := t.Date
  let (hour, min, sec) := t.Clock
  time.Date (year + years) (month + months) (day + days) hour min sec t.nsec t.loc

/-- Go `isDigit` applied to the first byte. -/
def isDigit (c : Char) : Bool := decide ('0' ≤ c ∧ c ≤ '9')

/-- Value of a decimal digit. -/
def digitVal (c : Char) : Int := (c.toNat : Int) - ('0'.toNat : Int)

/-- Go `getnum` with `fixed = true`: exactly two leading decimal digits. -/
def getnum2 : List Char → Option (Int × List Char)
  | a :: b :: rest =>
    if isDigit a && isDigit b then some (digitVal a * 10 + digitVal b, rest)
    else none
  | _ => none

/-- Go `skip` for the one-character prefix `-`. -/
def skipDash : List Char → Option (List Char)
  | c :: rest => if c = '-' then some rest else none
  | [] => none

/-- The year element `2006` of a layout: four bytes, all decimal digits
(`atoi` of the first four bytes, the first of which is a digit). -/
def getYear4 : List Char → Option (Int × List Char)
  | a :: b :: c :: d :: rest =>
    if isDigit a && isDigit b && isDigit c && isDigit d then
      some (((digitVal a * 10 + digitVal b) * 10 + digitVal c) * 10 + digitVal d, rest)
    else none
  | _ => none

/-- The elements of Go `time.Parse` for the layout `2006-01-02`: year, month
and day of a well-formed value, an error otherwise. -/
def parseYMD (value : String) : Except GoError (Int × Int × Int) :=
  match getYear4 value.toList with
  | none => .error ⟨"cannot parse year"⟩
  | some (year, rest) =>
    match skipDash rest with
    | none => .error ⟨"cannot parse separator"⟩
    | some rest =>
      match getnum2 rest with
      | none => .error ⟨"cannot parse month"⟩
      | some (month, rest) =>
        if month ≤ 0 ∨ 12 < month then .error ⟨"month out of range"⟩
        else
          match skipDash rest with
          | none => .error ⟨"cannot parse separator"⟩
          | some rest =>
            match getnum2 rest with
            | none => .error ⟨"cannot parse day"⟩
            | some (day, rest) =>
              if rest ≠ [] then .error ⟨"extra text"⟩
              else if day < 1 ∨ day > daysIn month year then
                .error ⟨"day out of range"⟩
              else .ok (year, month, day)

/-- Go `time.ParseInLocation`.  Only the layout `2006-01-02`, the one the
handler passes, is modelled; any other layout is reported as an error. -/
def ParseInLocation (layout value : String) (loc : Location) : Except GoError Time :=
  if layout = "2006-01-02" then
    match parseYMD value with
    | .error e => .error e
    | .ok (year, month, day) => .ok (Date year month day 0 0 0 0 loc)
  else .error ⟨"layout not modelled"⟩

/-- The leap-day adjustment of `Date`: one day from March on in a leap year. -/
def leapAdjust (leap : Bool) (month : Int) : Int :=
  if leap && decide (month ≥ 3) then 1 else 0

/-- Every offset of the location is at most `bound` seconds away from UTC. -/
def Location.offsetsWithin (l : Location) (bound : Int) : Bool :=
  decide (-bound ≤ l.offset ∧ l.offset ≤ bound) &&
    l.tx.all (fun t => decide (-bound ≤ t.offset ∧ t.offset ≤ bound))

end time

/-! ## Collaborators of the handler -/

namespace gin

/-- The part of `gin.Context` the handler reads: the query parameters of the
request URL, in the order in which they appear. -/
structure Context where
  query : List (String × String)
deriving DecidableEq, Repr

/-- Gin `(*Context).GetQuery`: the first value of the parameter, if the
parameter is present. -/
def Context.GetQuery (c : Context) (key : String) : Option String :=
  c.query.lookup key

/-- Gin `(*Context).Query`: the first value of the parameter, the empty string
when the parameter is absent. -/
def Context.Query (c : Context) (key : String) : String :=
  (c.GetQuery key).getD ""

/-- Gin `(*Context).DefaultQuery`: the first value of the parameter,
`defaultValue` when the parameter is absent. -/
def Context.DefaultQuery (c : Context) (key defaultValue : String) : String :=
  (c.GetQuery key).getD defaultValue

/-- The request `c` with the parameter `key` removed. -/
def Context.without (c : Context) (key : String) : Context :=
  ⟨c.query.filter (fun p => p.1 != key)⟩

/-- The request `c` with the parameter `key` set to `value`. -/
def Context.withParam (c : Context) (key value : String) : Context :=
  ⟨(key, value) :: (c.without key).query⟩

end gin

/-- Go `float64`, as its IEEE-754 bit pattern.  The handler only copies such
values. -/
structure Float64 where
  bits : Nat
deriving DecidableEq, Repr

namespace service

open time

/-- Modelled from the spec: the status of an API key, "active/inactive
status"; the declaration of `service.APIKey` is not among the sources. -/
inductive Status where
  | active
  | inactive
deriving DecidableEq, Repr

/-- Modelled from the spec: `service.APIKey`, "identifier, key string,
active/inactive status". -/
structure APIKey where
  ID : Int
  Key : String
  Status : Status
deriving DecidableEq, Repr

/-- Modelled from the spec: "API Key exposes an `isActive()` predicate". -/
def APIKey.IsActive (k : APIKey) : Bool := k.Status == .active

/-- The statistics returned by the usage aggregator: the fields of the value
the handler reads.  The declaration of the type is not among the sources; the
field types are those of `PublicUsageStatsResponse`, to which they are
assigned. -/
structure UsageStats where
  TotalRequests : Int
  TotalInputTokens : Int
  TotalOutputTokens : Int
  TotalCacheCreationTokens : Int
  TotalCacheReadTokens : Int
  TotalTokens : Int
  TotalCost : Float64
  TotalActualCost : Float64
  AverageDurationMs : Float64
deriving DecidableEq, Repr

/-- The key-lookup service: the result of `GetByKey` for each key string,
either a key or an error. -/
structure APIKeyService where
  GetByKey : String → Except GoError APIKey

/-- The usage aggregator: the result of `GetDetailedStatsByAPIKey` for each
key identifier, start and end time, either statistics or an error. -/
structure UsageService where
  GetDetailedStatsByAPIKey : Int → Time → Time → Except GoError UsageStats

end service

namespace handler

/-- Go `PublicUsageStatsResponse`. -/
structure PublicUsageStatsResponse where
  TotalRequests : Int
  TotalInputTokens : Int
  TotalOutputTokens : Int
  TotalCacheCreationTokens : Int
  TotalCacheReadTokens : Int
  TotalTokens : Int
  TotalCost : Float64
  TotalActualCost : Float64
  AverageDurationMs : Float64
deriving DecidableEq, Repr

end handler

namespace response

open time

/-- A response written through the `response` package, named after the
function that writes it. -/
inductive Response where
  | BadRequest (message : String)
  | NotFound (message : String)
  | ErrorFrom (err : GoError)
  | Success (data : handler.PublicUsageStatsResponse)
deriving DecidableEq, Repr

/-- Modelled from the spec: the HTTP status of a response, "400 (bad request
...), 404 (key not found), or 500/other (aggregator failure), status code and
message format dictated by a shared response-formatting collaborator"; the
`response` package is not among the sources.  The status of an error response
built by `ErrorFrom` is left to the collaborator, as `errorStatus`. -/
def Response.status (errorStatus : GoError → Nat) : Response → Nat
  | .BadRequest _ => 400
  | .NotFound _ => 404
  | .ErrorFrom err => errorStatus err
  | .Success _ => 200

end response

namespace timezone

open time

/-- The functions of the `timezone` package the handler calls.  The package is
not among the sources; the handler is embedded over any implementation. -/
structure Helper where
  NowInUserLocation : String → Time
  ParseInUserLocation : String → String → String → Except GoError Time
  StartOfDayInUserLocation : Time → String → Time

/-- What the `timezone` package reads from its surroundings: the clock, the
system default location and the zone database. -/
structure World where
  clock : Int
  server : Location
  LoadLocation : String → Option Location

/-- Modelled from the spec: the location for a zone name, "empty timezone
implies a system default".  The spec does not say what a name unknown to the
zone database resolves to; it is resolved like the empty name here. -/
def World.userLocation (w : World) (userTZ : String) : Location :=
  if userTZ = "" then w.server
  else
    match w.LoadLocation userTZ with
    | some loc => loc
    | none => w.server

/-- Modelled from the spec: "resolves now ... in a named zone". -/
def World.NowInUserLocation (w : World) (userTZ : String) : Time :=
  (Time.mk w.clock UTC).In (w.userLocation userTZ)

/-- Modelled from the spec: "parses a calendar date string in that zone". -/
def World.ParseInUserLocation (w : World) (layout value userTZ : String) :
    Except GoError Time :=
  ParseInLocation layout value (w.userLocation userTZ)

/-- Modelled from the spec: "resolves ... start of day in a named zone": the
first instant of the calendar day that `t` falls on in the zone. -/
def World.StartOfDayInUserLocation (w : World) (t : Time) (userTZ : String) : Time :=
  let loc := w.userLocation userTZ
  let t := t.In loc
  let (year, month, day) := t.Date
  Date year month day 0 0 0 0 loc

/-- Modelled from the spec: the `timezone` package in the world `w`. -/
def World.helper (w : World) : Helper :=
  ⟨w.NowInUserLocation, w.ParseInUserLocation, w.StartOfDayInUserLocation⟩

end timezone

/-! ## The handler -/

namespace handler

open time gin service response timezone

/-- What a request does that can be observed from outside the handler, in the
order in which it happens. -/
inductive Action where
  | GetByKey (key : String)
  | GetDetailedStatsByAPIKey (apiKeyID : Int) (startTime endTime : Time)
  | Respond (r : Response)
deriving DecidableEq, Repr

/-- Go `PublicHandler`. -/
structure PublicHandler where
  usageService : UsageService
  apiKeyService : APIKeyService

/-- Go `NewPublicHandler`. -/
def NewPublicHandler (usageService : UsageService) (apiKeyService : APIKeyService) :
    PublicHandler :=
  { usageService := usageService, apiKeyService := apiKeyService }

/-- Go `(*PublicHandler).Usage`: the actions of the handler on the request
`c`, with `tz` the `timezone` package. -/
def PublicHandler.Usage (h : PublicHandler) (tz : Helper) (c : Context) : List Action :=
  -- Get API key from query parameter
  let key := c.Query "key"
  if key = "" then [.Respond (.BadRequest "API key is required")]
  else
    -- Validate API key exists and is active
    .GetByKey key ::
    match h.apiKeyService.GetByKey key with
    | .error _ => [.Respond (.NotFound "API key not found")]
    | .ok apiKey =>
      if !apiKey.IsActive then [.Respond (.BadRequest "API key is not active")]
      else
        -- Parse time range parameters
        let userTZ := c.Query "timezone"
        let now := tz.NowInUserLocation userTZ
        -- Check for custom date range first
        let startDateStr := c.Query "start_date"
        let endDateStr := c.Query "end_date"
        let range : Except Response (Time × Time) :=
          if startDateStr ≠ "" ∧ endDateStr ≠ "" then
            -- Use custom date range
            match tz.ParseInUserLocation "2006-01-02" startDateStr userTZ with
            | .error _ => .error (.BadRequest "Invalid start_date format, use YYYY-MM-DD")
            | .ok startTime =>
              match tz.ParseInUserLocation "2006-01-02" endDateStr userTZ with
              | .error _ => .error (.BadRequest "Invalid end_date format, use YYYY-MM-DD")
              | .ok endTime =>
                -- Set end time to end of day
                .ok (startTime, endTime.Add (24 * Hour - Nanosecond))
          else
            -- Use period parameter
            let period := c.DefaultQuery "period" "today"
            let startTime :=
              if period = "today" then tz.StartOfDayInUserLocation now userTZ
              else if period = "week" then now.AddDate 0 0 (-7)
              else if period = "month" then now.AddDate 0 (-1) 0
              else tz.StartOfDayInUserLocation now userTZ
            .ok (startTime, now)
        match range with
        | .error r => [.Respond r]
        | .ok (startTime, endTime) =>
          -- Get usage statistics for the API key
          .GetDetailedStatsByAPIKey apiKey.ID startTime endTime ::
          match h.usageService.GetDetailedStatsByAPIKey apiKey.ID startTime endTime with
          | .error err => [.Respond (.ErrorFrom err)]
          | .ok stats =>
            -- Build response
            let resp : PublicUsageStatsResponse :=
              { TotalRequests := stats.TotalRequests
                TotalInputTokens := stats.TotalInputTokens
                TotalOutputTokens := stats.TotalOutputTokens
                TotalCacheCreationTokens := stats.TotalCacheCreationTokens
                TotalCacheReadTokens := stats.TotalCacheReadTokens
                TotalTokens := stats.TotalTokens
                TotalCost := stats.TotalCost
                TotalActualCost := stats.TotalActualCost
                AverageDurationMs := stats.AverageDurationMs }
            [.Respond (.Success resp)]

/-- The responses among the actions. -/
def responses : List Action → List Response
  | [] => []
  | .Respond r :: rest => r :: responses rest
  | _ :: rest => responses rest

/-- The aggregator calls among the actions, as (key id, start, end). -/
def aggregatorCalls : List Action → List (Int × Time × Time)
  | [] => []
  | .GetDetailedStatsByAPIKey i s e :: rest => (i, s, e) :: aggregatorCalls rest
  | _ :: rest => aggregatorCalls rest

/-- The key-lookup calls among the actions. -/
def lookupCalls : List Action → List String
  | [] => []
  | .GetByKey k :: rest => k :: lookupCalls rest
  | _ :: rest => lookupCalls rest

/-- The time range of lines 63-101 of the handler: the range passed to the
aggregator, or the response that ends the request. -/
def resolveRange (tz : Helper) (c : Context) : Except Response (Time × Time) :=
  let userTZ := c.Query "timezone"
  let now := tz.NowInUserLocation userTZ
  if c.Query "start_date" ≠ "" ∧ c.Query "end_date" ≠ "" then
    match tz.ParseInUserLocation "2006-01-02" (c.Query "start_date") userTZ with
    | .error _ => .error (.BadRequest "Invalid start_date format, use YYYY-MM-DD")
    | .ok startTime =>
      match tz.ParseInUserLocation "2006-01-02" (c.Query "end_date") userTZ with
      | .error _ => .error (.BadRequest "Invalid end_date format, use YYYY-MM-DD")
      | .ok endTime => .ok (startTime, endTime.Add (24 * Hour - Nanosecond))
  else
    let period := c.DefaultQuery "period" "today"
    let startTime :=
      if period = "today" then tz.StartOfDayInUserLocation now userTZ
      else if period = "week" then now.AddDate 0 0 (-7)
      else if period = "month" then now.AddDate 0 (-1) 0
      else tz.StartOfDayInUserLocation now userTZ
    .ok (startTime, now)

/-- The payload of lines 110-121 of the handler. -/
def buildResponse (stats : UsageStats) : PublicUsageStatsResponse :=
  { TotalRequests := stats.TotalRequests
    TotalInputTokens := stats.TotalInputTokens
    TotalOutputTokens := stats.TotalOutputTokens
    TotalCacheCreationTokens := stats.TotalCacheCreationTokens
    TotalCacheReadTokens := stats.TotalCacheReadTokens
    TotalTokens := stats.TotalTokens
    TotalCost := stats.TotalCost
    TotalActualCost := stats.TotalActualCost
    AverageDurationMs := stats.AverageDurationMs }

/-- The response of lines 104-123 of the handler to the result of the
aggregator. -/
def statsResponse : Except GoError UsageStats → Response
  | .error err => .ErrorFrom err
  | .ok stats => .Success (buildResponse stats)

end handler

/-! ## Sample collaborators -/

namespace sample

open time service timezone handler

/-- The zone `America/New_York` around 2024: standard time (UTC-5) until
2024-03-10T07:00:00Z, daylight time (UTC-4) until 2024-11-03T06:00:00Z,
standard time after. -/
def newYork : Location :=
  ⟨"America/New_York", -18000, [⟨1710054000, -14400⟩, ⟨1730613600, -18000⟩]⟩

/-- A zone database with two names. -/
def loadLocation (name : String) : Option Location :=
  if name = "America/New_York" then some newYork
  else if name = "UTC" then some UTC
  else none

/-- A server in UTC whose clock reads 2024-11-03T15:30:00.5Z. -/
def world : World := ⟨1730647800500000000, UTC, loadLocation⟩

/-- A key store with one active and one inactive key. -/
def keys : APIKeyService :=
  ⟨fun key =>
    if key = "sk-live" then .ok ⟨42, "sk-live", .active⟩
    else if key = "sk-old" then .ok ⟨7, "sk-old", .inactive⟩
    else .error ⟨"record not found"⟩⟩

def stats : UsageStats := ⟨10, 200, 300, 40, 50, 590, ⟨1⟩, ⟨2⟩, ⟨3⟩⟩

/-- An aggregator that answers every call with `stats`. -/
def aggregator : UsageService := ⟨fun _ _ _ => .ok stats⟩

/-- An aggregator that fails every call. -/
def brokenAggregator : UsageService := ⟨fun _ _ _ => .error ⟨"database unavailable"⟩⟩

def publicHandler : PublicHandler := NewPublicHandler aggregator keys

def brokenHandler : PublicHandler := NewPublicHandler brokenAggregator keys

/-- `GET /api/v1/public/usage?period=week`. -/
def noKeyRequest : gin.Context := ⟨[("period", "week")]⟩

/-- `GET /api/v1/public/usage?key=sk-gone&period=week`. -/
def unknownKeyRequest : gin.Context := ⟨[("key", "sk-gone"), ("period", "week")]⟩

/-- `GET /api/v1/public/usage?key=sk-old&start_date=2024/01/01&end_date=x`. -/
def inactiveKeyRequest : gin.Context :=
  ⟨[("key", "sk-old"), ("start_date", "2024/01/01"), ("end_date", "x")]⟩

/-- `GET /api/v1/public/usage?key=sk-live&start_date=2024/01/01&end_date=2024-01-31`. -/
def badStartRequest : gin.Context :=
  ⟨[("key", "sk-live"), ("start_date", "2024/01/01"), ("end_date", "2024-01-31")]⟩

/-- `GET /api/v1/public/usage?key=sk-live&timezone=America/New_York&period=week`. -/
def weekRequest : gin.Context :=
  ⟨[("key", "sk-live"), ("timezone", "America/New_York"), ("period", "week")]⟩

/-- `GET /api/v1/public/usage?key=sk-live&timezone=America/New_York&period=bogus`. -/
def bogusPeriodRequest : gin.Context :=
  ⟨[("key", "sk-live"), ("timezone", "America/New_York"), ("period", "bogus")]⟩

/-- `GET /api/v1/public/usage?key=sk-live&timezone=America/New_York&period=`. -/
def emptyPeriodRequest : gin.Context :=
  ⟨[("key", "sk-live"), ("timezone", "America/New_York"), ("period", "")]⟩

/-- `GET /api/v1/public/usage?key=sk-live&period=month&start_date=2024/01/01`. -/
def oneDateRequest : gin.Context :=
  ⟨[("key", "sk-live"), ("period", "month"), ("start_date", "2024/01/01")]⟩

/-- `GET /api/v1/public/usage?key=sk-live&timezone=America/New_York&`
`start_date=2024-11-01&end_date=2024-11-03`: the range ends on the day on which
New York leaves daylight time, a day of 25 hours. -/
def longDayRequest : gin.Context :=
  ⟨[("key", "sk-live"), ("timezone", "America/New_York"),
    ("start_date", "2024-11-01"), ("end_date", "2024-11-03")]⟩

/-- `GET /api/v1/public/usage?key=sk-live&start_date=2024-01-01&end_date=2024-01-31`,
resolved in the zone of the server, UTC. -/
def januaryRequest : gin.Context :=
  ⟨[("key", "sk-live"), ("start_date", "2024-01-01"), ("end_date", "2024-01-31")]⟩

/-- `GET /api/v1/public/usage?key=sk-live&start_date=2024-01-31&end_date=2024-01-01`. -/
def reversedRequest : gin.Context :=
  ⟨[("key", "sk-live"), ("start_date", "2024-01-31"), ("end_date", "2024-01-01")]⟩

end sample

/-! # Theorems -/

namespace time

/-! ## Calendar arithmetic of Go `time` -/

theorem isLeap_iff (year : Int) :
    isLeap year = true ↔ (year % 4 = 0 ∧ (year % 100 ≠ 0 ∨ year % 400 = 0)) := by
  simp [isLeap]

/-- The cycles that `absDate` cuts off the day count. -/
theorem absYearDay_cycles (d : Int) :
    ∃ n400 n100 n4 n1 yday : Int,
      absYearDay d = (400 * n400 + 100 * n100 + 4 * n4 + n1 + absoluteZeroYear, yday) ∧
      d = 146097 * n400 + 36524 * n100 + 1461 * n4 + 365 * n1 + yday ∧
      0 ≤ n100 ∧ n100 ≤ 3 ∧ 0 ≤ n4 ∧ n4 ≤ 24 ∧ 0 ≤ n1 ∧ n1 ≤ 3 ∧ 0 ≤ yday ∧
      (yday ≤ 364 ∨ (yday = 365 ∧ n1 = 3 ∧ (n4 ≠ 24 ∨ n100 = 3))) := by
  simp only [absYearDay, daysPer400Years, daysPer100Years, daysPer4Years]
  refine ⟨_, _, _, _, _, rfl, ?_⟩
  omega

theorem daysSinceEpoch_cycles (n400 n100 n4 n1 : Int)
    (h1 : 0 ≤ n100) (h2 : n100 ≤ 3) (h3 : 0 ≤ n4) (h4 : n4 ≤ 24) (h5 : 0 ≤ n1) (h6 : n1 ≤ 3) :
    daysSinceEpoch (400 * n400 + 100 * n100 + 4 * n4 + n1 + absoluteZeroYear) =
      146097 * n400 + 36524 * n100 + 1461 * n4 + 365 * n1 := by
  simp only [daysSinceEpoch, daysPer400Years, daysPer100Years, daysPer4Years]
  omega

theorem isLeap_cycles (n400 n100 n4 n1 : Int)
    (h1 : 0 ≤ n100) (h2 : n100 ≤ 3) (h3 : 0 ≤ n4) (h4 : n4 ≤ 24) (h5 : 0 ≤ n1) (h6 : n1 ≤ 3) :
    isLeap (400 * n400 + 100 * n100 + 4 * n4 + n1 + absoluteZeroYear) = true ↔
      (n1 = 3 ∧ (n4 ≠ 24 ∨ n100 = 3)) := by
  rw [isLeap_iff]
  simp only [absoluteZeroYear]
  omega

/-- The year and day of the year that `absDate` finds add up to the day
count, and the day of the year lies within the year. -/
theorem absYearDay_spec (d : Int) :
    daysSinceEpoch (absYearDay d).1 + (absYearDay d).2 = d ∧
    0 ≤ (absYearDay d).2 ∧
    (absYearDay d).2 < (if isLeap (absYearDay d).1 = true then 366 else 365) := by
  obtain ⟨n400, n100, n4, n1, yday, he, hd, h1, h2, h3, h4, h5, h6, h7, h8⟩ :=
    absYearDay_cycles d
  rw [he]
  simp only
  rw [daysSinceEpoch_cycles n400 n100 n4 n1 h1 h2 h3 h4 h5 h6]
  have hl := isLeap_cycles n400 n100 n4 n1 h1 h2 h3 h4 h5 h6
  refine ⟨by omega, h7, ?_⟩
  split
  · omega
  · rename_i hn
    rw [hl] at hn
    omega

set_option maxRecDepth 100000 in
theorem absMonthDay_table :
    ∀ leap : Bool, ∀ n : Nat, n < 366 → (n < 365 ∨ leap = true) →
      1 ≤ (absMonthDay leap n).1 ∧ (absMonthDay leap n).1 ≤ 12 ∧
      1 ≤ (absMonthDay leap n).2 ∧ (absMonthDay leap n).2 ≤ 31 ∧
      daysBeforeAt ((absMonthDay leap n).1 - 1) + leapAdjust leap (absMonthDay leap n).1 +
        ((absMonthDay leap n).2 - 1) = n := by
  decide

theorem norm_id (hi lo base : Int) (h0 : 0 ≤ lo) (h1 : lo < base) :
    norm hi lo base = (hi, lo) := by
  simp only [norm, not_lt.mpr h0, if_false, ge_iff_le, not_le.mpr h1]

theorem norm_month_zero (year : Int) : norm year (-1) 12 = (year - 1, 11) := by
  simp [norm]

theorem lookupTx_bound (bound sec : Int) (tx : List zoneTrans) :
    ∀ off start : Int, -bound ≤ off ∧ off ≤ bound →
      (tx.all (fun t => decide (-bound ≤ t.offset ∧ t.offset ≤ bound)) = true) →
      -bound ≤ (lookupTx sec off start tx).1 ∧ (lookupTx sec off start tx).1 ≤ bound := by
  induction tx with
  | nil => intro off start hoff _; exact hoff
  | cons t rest ih =>
    intro off start hoff hall
    simp only [List.all_cons, Bool.and_eq_true, decide_eq_true_eq] at hall
    unfold lookupTx
    split
    · exact hoff
    · exact ih t.offset t.when hall.1 hall.2

theorem lookup_bound (l : Location) (bound sec : Int) (hl : l.offsetsWithin bound = true) :
    -bound ≤ (l.lookup sec).1 ∧ (l.lookup sec).1 ≤ bound := by
  simp only [Location.offsetsWithin, Bool.and_eq_true, decide_eq_true_eq] at hl
  exact lookupTx_bound bound sec l.tx l.offset alpha hl.1 hl.2

/-- The instant that `Date` returns for a date and clock reading in normal
form: the reading taken as UTC, moved by one of the offsets of the location. -/
theorem Date_normal (year month day hour min sec nsec : Int) (loc : Location) (bound : Int)
    (hl : loc.offsetsWithin bound = true)
    (hm1 : 1 ≤ month) (hm2 : month ≤ 12) (hh1 : 0 ≤ hour) (hh2 : hour < 24)
    (hmi1 : 0 ≤ min) (hmi2 : min < 60) (hs1 : 0 ≤ sec) (hs2 : sec < 60)
    (hn1 : 0 ≤ nsec) (hn2 : nsec < 1000000000) :
    ∃ off : Int, -bound ≤ off ∧ off ≤ bound ∧
      (Date year month day hour min sec nsec loc).unixNano =
        ((daysSinceEpoch year + daysBeforeAt (month - 1) + leapAdjust (isLeap year) month +
            (day - 1)) * 86400 + (hour * 3600 + min * 60 + sec) - unixToAbsolute - off)
          * 1000000000 + nsec := by
  unfold Date
  simp only [norm_id year (month - 1) 12 (by omega) (by omega),
    norm_id sec nsec 1000000000 hn1 hn2, norm_id min sec 60 hs1 hs2,
    norm_id hour min 60 hmi1 hmi2, norm_id day hour 24 hh1 hh2]
  have hadj : (if (isLeap year && decide (month - 1 + 1 ≥ 3)) = true then
        daysSinceEpoch year + daysBeforeAt (month - 1 + 1 - 1) + 1
      else daysSinceEpoch year + daysBeforeAt (month - 1 + 1 - 1)) =
      daysSinceEpoch year + daysBeforeAt (month - 1) + leapAdjust (isLeap year) month := by
    have e1 : month - 1 + 1 = month := by omega
    rw [e1]
    unfold leapAdjust
    split <;> simp
  rw [hadj]
  simp only [secondsPerDay, secondsPerHour, secondsPerMinute, unixTime]
  generalize hu : (daysSinceEpoch year + daysBeforeAt (month - 1) + leapAdjust (isLeap year) month +
    (day - 1)) * (24 * (60 * 60)) + (hour * (60 * 60) + min * 60 + sec) - unixToAbsolute = unix
  have hb1 := lookup_bound loc bound unix hl
  have hb2 := lookup_bound loc bound (unix - (loc.lookup unix).1) hl
  by_cases hz : (loc.lookup unix).1 = 0
  · refine ⟨(loc.lookup unix).1, hb1.1, hb1.2, ?_⟩
    simp only [hz, ne_eq, not_true_eq_false, if_false]
    omega
  · by_cases hv : unix - (loc.lookup unix).1 < (loc.lookup unix).2.1 ∨
        unix - (loc.lookup unix).1 ≥ (loc.lookup unix).2.2
    · refine ⟨(loc.lookup (unix - (loc.lookup unix).1)).1, hb2.1, hb2.2, ?_⟩
      simp only [ne_eq, hz, not_false_eq_true, if_true, hv]
      omega
    · refine ⟨(loc.lookup unix).1, hb1.1, hb1.2, ?_⟩
      simp only [ne_eq, hz, not_false_eq_true, if_true, hv, if_false]
      omega

theorem daysSinceEpoch_step (year : Int) :
    daysSinceEpoch (year - 1) + 365 ≤ daysSinceEpoch year := by
  simp only [daysSinceEpoch, daysPer400Years, daysPer100Years, daysPer4Years, absoluteZeroYear]
  omega

theorem leapAdjust_bounds (leap : Bool) (month : Int) :
    0 ≤ leapAdjust leap month ∧ leapAdjust leap month ≤ 1 := by
  unfold leapAdjust
  split <;> omega

/-- A month starts at least 28 days after the month before it, within a year. -/
theorem monthStart_step (leap : Bool) (month : Int) (h1 : 2 ≤ month) (h2 : month ≤ 12) :
    daysBeforeAt (month - 1 - 1) + leapAdjust leap (month - 1) + 28 ≤
      daysBeforeAt (month - 1) + leapAdjust leap month := by
  have hcases : month = 2 ∨ month = 3 ∨ month = 4 ∨ month = 5 ∨ month = 6 ∨ month = 7 ∨
      month = 8 ∨ month = 9 ∨ month = 10 ∨ month = 11 ∨ month = 12 := by omega
  rcases hcases with h | h | h | h | h | h | h | h | h | h | h <;> subst h <;>
    cases leap <;> decide

theorem Date_month_zero (year day hour min sec nsec : Int) (loc : Location) :
    Date year 0 day hour min sec nsec loc = Date (year - 1) 12 day hour min sec nsec loc := by
  unfold Date
  have e1 : (0 : Int) - 1 = -1 := by omega
  have e2 : (12 : Int) - 1 = 11 := by omega
  simp only [e1, e2, norm_month_zero, norm_id (year - 1) 11 12 (by omega) (by omega)]

theorem absDate_eq (abs : Int) :
    absDate abs =
      ((absYearDay (abs / secondsPerDay)).1,
       (absMonthDay (isLeap (absYearDay (abs / secondsPerDay)).1)
         (absYearDay (abs / secondsPerDay)).2).1,
       (absMonthDay (isLeap (absYearDay (abs / secondsPerDay)).1)
         (absYearDay (abs / secondsPerDay)).2).2) := rfl

/-- The date and clock reading of an absolute time are in normal form and
add up to it. -/
theorem absDate_absClock_spec (abs : Int) :
    1 ≤ (absDate abs).2.1 ∧ (absDate abs).2.1 ≤ 12 ∧
    0 ≤ (absClock abs).1 ∧ (absClock abs).1 < 24 ∧
    0 ≤ (absClock abs).2.1 ∧ (absClock abs).2.1 < 60 ∧
    0 ≤ (absClock abs).2.2 ∧ (absClock abs).2.2 < 60 ∧
    (daysSinceEpoch (absDate abs).1 + daysBeforeAt ((absDate abs).2.1 - 1) +
        leapAdjust (isLeap (absDate abs).1) (absDate abs).2.1 + ((absDate abs).2.2 - 1)) * 86400 +
      ((absClock abs).1 * 3600 + (absClock abs).2.1 * 60 + (absClock abs).2.2) = abs := by
  rw [absDate_eq]
  obtain ⟨hsum, h0, hlt⟩ := absYearDay_spec (abs / secondsPerDay)
  generalize (absYearDay (abs / secondsPerDay)).1 = year at hsum hlt ⊢
  generalize hyd : (absYearDay (abs / secondsPerDay)).2 = yday at hsum h0 hlt ⊢
  obtain ⟨n, rfl⟩ := Int.eq_ofNat_of_zero_le h0
  have hn : n < 366 ∧ (n < 365 ∨ isLeap year = true) := by
    by_cases hleap : isLeap year = true
    · rw [if_pos hleap] at hlt
      exact ⟨by omega, Or.inr hleap⟩
    · rw [if_neg hleap] at hlt
      exact ⟨by omega, Or.inl (by omega)⟩
  obtain ⟨m1, m2, d1, _, hmd⟩ := absMonthDay_table (isLeap year) n hn.1 hn.2
  simp only [absClock, secondsPerDay, secondsPerHour, secondsPerMinute] at hsum ⊢
  refine ⟨m1, m2, ?_, ?_, ?_, ?_, ?_, ?_, ?_⟩ <;> omega

theorem Time.abs_eq (t : Time) :
    t.abs = t.unixNano / 1000000000 + (t.loc.lookup (t.unixNano / 1000000000)).1 +
      unixToAbsolute := rfl

/-- Seven calendar days before `t` is not after `t`, in a location whose
offsets stay within a day of UTC. -/
theorem Time.AddDate_week_le (t : Time) (hl : t.loc.offsetsWithin 86400 = true) :
    (t.AddDate 0 0 (-7)).unixNano ≤ t.unixNano := by
  obtain ⟨hm1, hm2, hh1, hh2, hmi1, hmi2, hs1, hs2, hsum⟩ := absDate_absClock_spec t.abs
  have hn1 : 0 ≤ t.nsec := Int.emod_nonneg _ (by decide)
  have hn2 : t.nsec < 1000000000 := Int.emod_lt_of_pos _ (by decide)
  obtain ⟨off, ho1, ho2, hd⟩ := Date_normal ((absDate t.abs).1 + 0) ((absDate t.abs).2.1 + 0)
    ((absDate t.abs).2.2 + -7) (absClock t.abs).1 (absClock t.abs).2.1 (absClock t.abs).2.2
    t.nsec t.loc 86400 hl (by omega) (by omega) hh1 hh2 hmi1 hmi2 hs1 hs2 hn1 hn2
  have hb := lookup_bound t.loc 86400 (t.unixNano / 1000000000) hl
  have habs := Time.abs_eq t
  have hdate : t.AddDate 0 0 (-7) =
      time.Date ((absDate t.abs).1 + 0) ((absDate t.abs).2.1 + 0) ((absDate t.abs).2.2 + -7)
        (absClock t.abs).1 (absClock t.abs).2.1 (absClock t.abs).2.2 t.nsec t.loc := rfl
  rw [hdate, hd]
  simp only [add_zero] at hsum ⊢
  simp only [Time.nsec] at hn1 hn2 ⊢
  omega

/-- One calendar month before `t` is not after `t`, in a location whose
offsets stay within a day of UTC. -/
theorem Time.AddDate_month_le (t : Time) (hl : t.loc.offsetsWithin 86400 = true) :
    (t.AddDate 0 (-1) 0).unixNano ≤ t.unixNano := by
  obtain ⟨hm1, hm2, hh1, hh2, hmi1, hmi2, hs1, hs2, hsum⟩ := absDate_absClock_spec t.abs
  have hn1 : 0 ≤ t.nsec := Int.emod_nonneg _ (by decide)
  have hn2 : t.nsec < 1000000000 := Int.emod_lt_of_pos _ (by decide)
  have hb := lookup_bound t.loc 86400 (t.unixNano / 1000000000) hl
  have habs := Time.abs_eq t
  have hdate : t.AddDate 0 (-1) 0 =
      time.Date ((absDate t.abs).1 + 0) ((absDate t.abs).2.1 + -1) ((absDate t.abs).2.2 + 0)
        (absClock t.abs).1 (absClock t.abs).2.1 (absClock t.abs).2.2 t.nsec t.loc := rfl
  rw [hdate]
  simp only [add_zero] at hsum ⊢
  simp only [Time.nsec] at hn1 hn2 ⊢
  by_cases hjan : (absDate t.abs).2.1 = 1
  · have e0 : (absDate t.abs).2.1 + -1 = 0 := by omega
    rw [e0, Date_month_zero]
    obtain ⟨off, ho1, ho2, hd⟩ := Date_normal ((absDate t.abs).1 - 1) 12
      (absDate t.abs).2.2 (absClock t.abs).1 (absClock t.abs).2.1 (absClock t.abs).2.2
      (t.unixNano % 1000000000) t.loc 86400 hl (by omega) (by omega) hh1 hh2 hmi1 hmi2
      hs1 hs2 hn1 hn2
    rw [hd]
    have hstep := daysSinceEpoch_step (absDate t.abs).1
    have ha1 := leapAdjust_bounds (isLeap ((absDate t.abs).1 - 1)) 12
    have ha2 := leapAdjust_bounds (isLeap (absDate t.abs).1) (absDate t.abs).2.1
    have e11 : daysBeforeAt (12 - 1) = 334 := by decide
    have e00 : daysBeforeAt ((absDate t.abs).2.1 - 1) = 0 := by rw [hjan]; decide
    rw [e11]
    rw [e00] at hsum
    omega
  · obtain ⟨off, ho1, ho2, hd⟩ := Date_normal (absDate t.abs).1 ((absDate t.abs).2.1 + -1)
      (absDate t.abs).2.2 (absClock t.abs).1 (absClock t.abs).2.1 (absClock t.abs).2.2
      (t.unixNano % 1000000000) t.loc 86400 hl (by omega) (by omega) hh1 hh2 hmi1 hmi2
      hs1 hs2 hn1 hn2
    rw [hd]
    have hstep := monthStart_step (isLeap (absDate t.abs).1) (absDate t.abs).2.1
      (by omega) hm2
    have e1 : (absDate t.abs).2.1 + -1 = (absDate t.abs).2.1 - 1 := by omega
    rw [e1]
    omega

end time
namespace handler

open time gin service response timezone

/-! ## Query parameters -/

theorem lookup_filter_ne (q : List (String × String)) (k k' : String) (hne : k' ≠ k) :
    (q.filter (fun p => p.1 != k)).lookup k' = q.lookup k' := by
  induction q with
  | nil => rfl
  | cons p rest ih =>
    obtain ⟨a, b⟩ := p
    by_cases hak : a = k
    · subst hak
      have h1 : (k' == a) = false := by simpa using hne
      simp [List.filter, List.lookup, h1, ih]
    · have h2 : (a != k) = true := by simpa using hak
      by_cases hka : k' = a
      · subst hka
        simp [List.filter, List.lookup, h2]
      · have h3 : (k' == a) = false := by simpa using hka
        simp [List.filter, List.lookup, h2, h3, ih]

theorem lookup_filter_self (q : List (String × String)) (k : String) :
    (q.filter (fun p => p.1 != k)).lookup k = none := by
  induction q with
  | nil => rfl
  | cons p rest ih =>
    obtain ⟨a, b⟩ := p
    by_cases hak : a = k
    · subst hak
      simp [List.filter, ih]
    · have h2 : (a != k) = true := by simpa using hak
      have h3 : (k == a) = false := by simpa using (fun h : k = a => hak h.symm)
      simp [List.filter, List.lookup, h2, h3, ih]

theorem GetQuery_without_ne (c : Context) (k k' : String) (hne : k' ≠ k) :
    (c.without k).GetQuery k' = c.GetQuery k' :=
  lookup_filter_ne c.query k k' hne

theorem GetQuery_without_self (c : Context) (k : String) :
    (c.without k).GetQuery k = none :=
  lookup_filter_self c.query k

theorem GetQuery_withParam_ne (c : Context) (k v k' : String) (hne : k' ≠ k) :
    (c.withParam k v).GetQuery k' = c.GetQuery k' := by
  have h1 : (k' == k) = false := by simpa using hne
  show List.lookup k' ((k, v) :: (c.without k).query) = _
  simp only [List.lookup, h1]
  exact lookup_filter_ne c.query k k' hne

theorem GetQuery_withParam_self (c : Context) (k v : String) :
    (c.withParam k v).GetQuery k = some v := by
  show List.lookup k ((k, v) :: (c.without k).query) = _
  simp [List.lookup]

/-! ## Shape of the handler -/

theorem Usage_no_key (h : PublicHandler) (tz : Helper) (c : Context)
    (hkey : c.Query "key" = "") :
    h.Usage tz c = [.Respond (.BadRequest "API key is required")] := by
  simp [PublicHandler.Usage, hkey]

theorem Usage_lookup_error (h : PublicHandler) (tz : Helper) (c : Context) (e : GoError)
    (hkey : c.Query "key" ≠ "")
    (hget : h.apiKeyService.GetByKey (c.Query "key") = .error e) :
    h.Usage tz c = [.GetByKey (c.Query "key"), .Respond (.NotFound "API key not found")] := by
  simp [PublicHandler.Usage, hkey, hget]

theorem Usage_inactive (h : PublicHandler) (tz : Helper) (c : Context) (k : APIKey)
    (hkey : c.Query "key" ≠ "")
    (hget : h.apiKeyService.GetByKey (c.Query "key") = .ok k)
    (hact : k.IsActive = false) :
    h.Usage tz c =
      [.GetByKey (c.Query "key"), .Respond (.BadRequest "API key is not active")] := by
  simp [PublicHandler.Usage, hkey, hget, hact]

theorem Usage_active (h : PublicHandler) (tz : Helper) (c : Context) (k : APIKey)
    (hkey : c.Query "key" ≠ "")
    (hget : h.apiKeyService.GetByKey (c.Query "key") = .ok k)
    (hact : k.IsActive = true) :
    h.Usage tz c =
      .GetByKey (c.Query "key") ::
        match resolveRange tz c with
        | .error r => [.Respond r]
        | .ok (s, e) =>
          [.GetDetailedStatsByAPIKey k.ID s e,
           .Respond (statsResponse (h.usageService.GetDetailedStatsByAPIKey k.ID s e))] := by
  simp only [PublicHandler.Usage, hkey, hget, hact, resolveRange]
  simp only [if_false, Bool.not_true, Bool.false_eq_true, List.cons.injEq, true_and]
  split
  · rfl
  · split <;> rename_i hs <;> simp [hs, statsResponse, buildResponse]

theorem Query_eq_empty_iff (c : Context) (k : String) :
    c.Query k = "" ↔ (c.GetQuery k = none ∨ c.GetQuery k = some "") := by
  unfold Context.Query
  cases hq : c.GetQuery k with
  | none => simp
  | some v => simp

/-- The actions of the handler, by cases on the key. -/
theorem Usage_cases (h : PublicHandler) (tz : Helper) (c : Context) :
    (c.Query "key" = "" ∧
      h.Usage tz c = [.Respond (.BadRequest "API key is required")]) ∨
    (c.Query "key" ≠ "" ∧ ∃ e, h.apiKeyService.GetByKey (c.Query "key") = .error e ∧
      h.Usage tz c = [.GetByKey (c.Query "key"), .Respond (.NotFound "API key not found")]) ∨
    (c.Query "key" ≠ "" ∧ ∃ k, h.apiKeyService.GetByKey (c.Query "key") = .ok k ∧
      k.IsActive = false ∧
      h.Usage tz c =
        [.GetByKey (c.Query "key"), .Respond (.BadRequest "API key is not active")]) ∨
    (c.Query "key" ≠ "" ∧ ∃ k, h.apiKeyService.GetByKey (c.Query "key") = .ok k ∧
      k.IsActive = true ∧ ∃ r, resolveRange tz c = .error r ∧
      h.Usage tz c = [.GetByKey (c.Query "key"), .Respond r]) ∨
    (c.Query "key" ≠ "" ∧ ∃ k, h.apiKeyService.GetByKey (c.Query "key") = .ok k ∧
      k.IsActive = true ∧ ∃ s e, resolveRange tz c = .ok (s, e) ∧
      h.Usage tz c =
        [.GetByKey (c.Query "key"), .GetDetailedStatsByAPIKey k.ID s e,
         .Respond (statsResponse (h.usageService.GetDetailedStatsByAPIKey k.ID s e))]) := by
  by_cases hkey : c.Query "key" = ""
  · exact Or.inl ⟨hkey, Usage_no_key h tz c hkey⟩
  · cases hget : h.apiKeyService.GetByKey (c.Query "key") with
    | error e =>
      exact Or.inr (Or.inl ⟨hkey, e, rfl, Usage_lookup_error h tz c e hkey hget⟩)
    | ok k =>
      cases hact : k.IsActive with
      | false =>
        exact Or.inr (Or.inr (Or.inl ⟨hkey, k, rfl, hact, Usage_inactive h tz c k hkey hget hact⟩))
      | true =>
        have hu := Usage_active h tz c k hkey hget hact
        cases hr : resolveRange tz c with
        | error r =>
          rw [hr] at hu
          exact Or.inr (Or.inr (Or.inr (Or.inl ⟨hkey, k, rfl, hact, r, rfl, hu⟩)))
        | ok p =>
          obtain ⟨s, e⟩ := p
          rw [hr] at hu
          exact Or.inr (Or.inr (Or.inr (Or.inr ⟨hkey, k, rfl, hact, s, e, rfl, hu⟩)))

/-- In period mode the range is resolved from `period` and the clock alone. -/
theorem resolveRange_period (tz : Helper) (c : Context)
    (hmode : c.Query "start_date" = "" ∨ c.Query "end_date" = "") :
    resolveRange tz c =
      .ok (
        (if c.DefaultQuery "period" "today" = "today" then
          tz.StartOfDayInUserLocation (tz.NowInUserLocation (c.Query "timezone"))
            (c.Query "timezone")
        else if c.DefaultQuery "period" "today" = "week" then
          (tz.NowInUserLocation (c.Query "timezone")).AddDate 0 0 (-7)
        else if c.DefaultQuery "period" "today" = "month" then
          (tz.NowInUserLocation (c.Query "timezone")).AddDate 0 (-1) 0
        else
          tz.StartOfDayInUserLocation (tz.NowInUserLocation (c.Query "timezone"))
            (c.Query "timezone")),
        tz.NowInUserLocation (c.Query "timezone")) := by
  have hno : ¬ (c.Query "start_date" ≠ "" ∧ c.Query "end_date" ≠ "") := by
    rintro ⟨h1, h2⟩
    rcases hmode with h | h
    · exact h1 h
    · exact h2 h
  simp only [resolveRange]
  rw [if_neg hno]

/-- In custom-range mode the range is resolved from the two dates alone. -/
theorem resolveRange_custom (tz : Helper) (c : Context)
    (hs : c.Query "start_date" ≠ "") (he : c.Query "end_date" ≠ "") :
    resolveRange tz c =
      match tz.ParseInUserLocation "2006-01-02" (c.Query "start_date") (c.Query "timezone") with
      | .error _ => .error (.BadRequest "Invalid start_date format, use YYYY-MM-DD")
      | .ok startTime =>
        match tz.ParseInUserLocation "2006-01-02" (c.Query "end_date") (c.Query "timezone") with
        | .error _ => .error (.BadRequest "Invalid end_date format, use YYYY-MM-DD")
        | .ok endTime => .ok (startTime, endTime.Add (24 * Hour - Nanosecond)) := by
  have hyes : c.Query "start_date" ≠ "" ∧ c.Query "end_date" ≠ "" := ⟨hs, he⟩
  simp only [resolveRange]
  rw [if_pos hyes]

/-- The handler reads the request through five parameters only. -/
theorem Usage_congr (h : PublicHandler) (tz : Helper) (c c' : Context)
    (hkey : c'.Query "key" = c.Query "key")
    (htz : c'.Query "timezone" = c.Query "timezone")
    (hs : c'.Query "start_date" = c.Query "start_date")
    (he : c'.Query "end_date" = c.Query "end_date")
    (hp : c'.DefaultQuery "period" "today" = c.DefaultQuery "period" "today") :
    h.Usage tz c' = h.Usage tz c := by
  simp only [PublicHandler.Usage, hkey, htz, hs, he, hp]

/-! ## Missing, unknown and inactive keys -/

/-- C1: whenever the `key` query parameter is absent or empty, `Usage` writes
exactly one response, the 400 bad request with message "API key is required",
and calls neither the key lookup nor the usage aggregator, whatever the other
query parameters are. -/
theorem usage_key_required (h : PublicHandler) (tz : Helper) (c : Context)
    (errorStatus : GoError → Nat)
    (hkey : c.GetQuery "key" = none ∨ c.GetQuery "key" = some "") :
    h.Usage tz c = [.Respond (.BadRequest "API key is required")] ∧
    responses (h.Usage tz c) = [.BadRequest "API key is required"] ∧
    (Response.BadRequest "API key is required").status errorStatus = 400 ∧
    lookupCalls (h.Usage tz c) = [] ∧
    aggregatorCalls (h.Usage tz c) = [] := by
  have hu := Usage_no_key h tz c ((Query_eq_empty_iff c "key").mpr hkey)
  rw [hu]
  simp [responses, lookupCalls, aggregatorCalls, Response.status]

/-- C2: for a non-empty `key`, a failing lookup gives the single response 404
"API key not found", and a key that is found but not active gives the single
response 400 "API key is not active"; in both cases the aggregator is not
called, and every request with the same `key` gets the same response, whatever
its other parameters. -/
theorem usage_key_not_found_or_inactive (h : PublicHandler) (tz : Helper) (c : Context)
    (errorStatus : GoError → Nat) (hkey : c.Query "key" ≠ "") :
    (∀ e, h.apiKeyService.GetByKey (c.Query "key") = .error e →
      h.Usage tz c = [.GetByKey (c.Query "key"), .Respond (.NotFound "API key not found")] ∧
      (Response.NotFound "API key not found").status errorStatus = 404 ∧
      aggregatorCalls (h.Usage tz c) = [] ∧
      ∀ c2 : Context, c2.Query "key" = c.Query "key" →
        responses (h.Usage tz c2) = [.NotFound "API key not found"]) ∧
    (∀ k, h.apiKeyService.GetByKey (c.Query "key") = .ok k → k.IsActive = false →
      h.Usage tz c =
        [.GetByKey (c.Query "key"), .Respond (.BadRequest "API key is not active")] ∧
      (Response.BadRequest "API key is not active").status errorStatus = 400 ∧
      aggregatorCalls (h.Usage tz c) = [] ∧
      ∀ c2 : Context, c2.Query "key" = c.Query "key" →
        responses (h.Usage tz c2) = [.BadRequest "API key is not active"]) := by
  constructor
  · intro e hget
    refine ⟨Usage_lookup_error h tz c e hkey hget, rfl, ?_, ?_⟩
    · rw [Usage_lookup_error h tz c e hkey hget]
      simp [aggregatorCalls]
    · intro c2 h2
      rw [Usage_lookup_error h tz c2 e (by rw [h2]; exact hkey) (by rw [h2]; exact hget)]
      simp [responses]
  · intro k hget hact
    refine ⟨Usage_inactive h tz c k hkey hget hact, rfl, ?_, ?_⟩
    · rw [Usage_inactive h tz c k hkey hget hact]
      simp [aggregatorCalls]
    · intro c2 h2
      rw [Usage_inactive h tz c2 k (by rw [h2]; exact hkey) (by rw [h2]; exact hget) hact]
      simp [responses]

/-! ## Malformed dates -/

/-- C4: with a valid active key and both `start_date` and `end_date` non-empty,
a `start_date` that fails to parse gives the single response 400 "Invalid
start_date format, use YYYY-MM-DD" (also when `end_date` is malformed too), and
otherwise an `end_date` that fails to parse gives the single response 400
"Invalid end_date format, use YYYY-MM-DD"; the aggregator is not called in
either case. -/
theorem usage_invalid_date (h : PublicHandler) (tz : Helper) (c : Context) (k : APIKey)
    (errorStatus : GoError → Nat)
    (hkey : c.Query "key" ≠ "")
    (hget : h.apiKeyService.GetByKey (c.Query "key") = .ok k)
    (hact : k.IsActive = true)
    (hs : c.Query "start_date" ≠ "") (he : c.Query "end_date" ≠ "") :
    (∀ err, tz.ParseInUserLocation "2006-01-02" (c.Query "start_date") (c.Query "timezone")
        = .error err →
      h.Usage tz c =
        [.GetByKey (c.Query "key"),
         .Respond (.BadRequest "Invalid start_date format, use YYYY-MM-DD")] ∧
      aggregatorCalls (h.Usage tz c) = []) ∧
    (∀ t err, tz.ParseInUserLocation "2006-01-02" (c.Query "start_date") (c.Query "timezone")
        = .ok t →
      tz.ParseInUserLocation "2006-01-02" (c.Query "end_date") (c.Query "timezone")
        = .error err →
      h.Usage tz c =
        [.GetByKey (c.Query "key"),
         .Respond (.BadRequest "Invalid end_date format, use YYYY-MM-DD")] ∧
      aggregatorCalls (h.Usage tz c) = []) ∧
    (Response.BadRequest "Invalid start_date format, use YYYY-MM-DD").status errorStatus = 400 ∧
    (Response.BadRequest "Invalid end_date format, use YYYY-MM-DD").status errorStatus = 400 := by
  have hu := Usage_active h tz c k hkey hget hact
  rw [resolveRange_custom tz c hs he] at hu
  refine ⟨?_, ?_, rfl, rfl⟩
  · intro err hp
    rw [hp] at hu
    rw [hu]
    simp [aggregatorCalls]
  · intro t err hp1 hp2
    rw [hp1, hp2] at hu
    rw [hu]
    simp [aggregatorCalls]

/-! ## Period mode -/

/-- C5: in period mode (valid active key, `start_date` or `end_date` empty) the
aggregator is called once, for the key's ID, with end = now in the requested
timezone, and with start = start of the day of now when `period` is `today` or
absent, now minus 7 calendar days when it is `week`, now minus 1 calendar
month when it is `month`. -/
theorem usage_period_range (h : PublicHandler) (tz : Helper) (c : Context) (k : APIKey)
    (hkey : c.Query "key" ≠ "")
    (hget : h.apiKeyService.GetByKey (c.Query "key") = .ok k)
    (hact : k.IsActive = true)
    (hmode : c.Query "start_date" = "" ∨ c.Query "end_date" = "") :
    ∃ start,
      aggregatorCalls (h.Usage tz c) =
        [(k.ID, start, tz.NowInUserLocation (c.Query "timezone"))] ∧
      (c.GetQuery "period" = none ∨ c.GetQuery "period" = some "today" →
        start = tz.StartOfDayInUserLocation (tz.NowInUserLocation (c.Query "timezone"))
          (c.Query "timezone")) ∧
      (c.GetQuery "period" = some "week" →
        start = (tz.NowInUserLocation (c.Query "timezone")).AddDate 0 0 (-7)) ∧
      (c.GetQuery "period" = some "month" →
        start = (tz.NowInUserLocation (c.Query "timezone")).AddDate 0 (-1) 0) := by
  have hu := Usage_active h tz c k hkey hget hact
  rw [resolveRange_period tz c hmode] at hu
  simp only [] at hu
  rw [hu]
  refine ⟨_, rfl, ?_, ?_, ?_⟩
  · intro hp
    have : c.DefaultQuery "period" "today" = "today" := by
      rcases hp with hp | hp <;> simp [Context.DefaultQuery, hp]
    simp [this]
  · intro hp
    have : c.DefaultQuery "period" "today" = "week" := by
      simp [Context.DefaultQuery, hp]
    simp [this]
  · intro hp
    have : c.DefaultQuery "period" "today" = "month" := by
      simp [Context.DefaultQuery, hp]
    simp [this]

theorem Query_withParam_ne (c : Context) (k v k' : String) (hne : k' ≠ k) :
    (c.withParam k v).Query k' = c.Query k' := by
  simp only [Context.Query, GetQuery_withParam_ne c k v k' hne]

theorem Query_without_ne (c : Context) (k k' : String) (hne : k' ≠ k) :
    (c.without k).Query k' = c.Query k' := by
  simp only [Context.Query, GetQuery_without_ne c k k' hne]

theorem Query_without_self (c : Context) (k : String) : (c.without k).Query k = "" := by
  simp only [Context.Query, GetQuery_without_self c k, Option.getD_none]

theorem DefaultQuery_without_ne (c : Context) (k k' d : String) (hne : k' ≠ k) :
    (c.without k).DefaultQuery k' d = c.DefaultQuery k' d := by
  simp only [Context.DefaultQuery, GetQuery_without_ne c k k' hne]

theorem DefaultQuery_withParam_self (c : Context) (k v d : String) :
    (c.withParam k v).DefaultQuery k d = v := by
  simp only [Context.DefaultQuery, GetQuery_withParam_self c k v, Option.getD_some]

/-- With a valid active key the handler is determined by the resolved range. -/
theorem Usage_active_congr (h : PublicHandler) (tz : Helper) (c c' : Context)
    (hkey : c'.Query "key" = c.Query "key")
    (hr : resolveRange tz c' = resolveRange tz c) :
    h.Usage tz c' = h.Usage tz c := by
  by_cases hk : c.Query "key" = ""
  · rw [Usage_no_key h tz c hk, Usage_no_key h tz c' (hkey.trans hk)]
  · have hk' : c'.Query "key" ≠ "" := by rw [hkey]; exact hk
    cases hget : h.apiKeyService.GetByKey (c.Query "key") with
    | error e =>
      rw [Usage_lookup_error h tz c e hk hget,
        Usage_lookup_error h tz c' e hk' (by rw [hkey]; exact hget), hkey]
    | ok k =>
      cases hact : k.IsActive with
      | false =>
        rw [Usage_inactive h tz c k hk hget hact,
          Usage_inactive h tz c' k hk' (by rw [hkey]; exact hget) hact, hkey]
      | true =>
        rw [Usage_active h tz c k hk hget hact,
          Usage_active h tz c' k hk' (by rw [hkey]; exact hget) hact, hkey, hr]

/-- A period value other than `week` and `month` resolves like `today`. -/
theorem resolveRange_fallback (tz : Helper) (c : Context)
    (hw : c.DefaultQuery "period" "today" ≠ "week")
    (hm : c.DefaultQuery "period" "today" ≠ "month") :
    resolveRange tz (c.withParam "period" "today") = resolveRange tz c := by
  have h1 : (c.withParam "period" "today").Query "timezone" = c.Query "timezone" :=
    Query_withParam_ne c _ _ _ (by decide)
  have h2 : (c.withParam "period" "today").Query "start_date" = c.Query "start_date" :=
    Query_withParam_ne c _ _ _ (by decide)
  have h3 : (c.withParam "period" "today").Query "end_date" = c.Query "end_date" :=
    Query_withParam_ne c _ _ _ (by decide)
  have h4 : (c.withParam "period" "today").DefaultQuery "period" "today" = "today" :=
    DefaultQuery_withParam_self c _ _ _
  simp only [resolveRange, h1, h2, h3, h4, hw, hm, if_true, if_false]
  by_cases hmode : c.Query "start_date" ≠ "" ∧ c.Query "end_date" ≠ ""
  · rw [if_pos hmode, if_pos hmode]
  · rw [if_neg hmode, if_neg hmode]
    by_cases ht : c.DefaultQuery "period" "today" = "today"
    · rw [if_pos ht]
    · rw [if_neg ht]

/-- C6: a request whose `period` value is not one of `today`, `week`, `month`
(for instance `bogus`, or present but empty) produces exactly the actions, and
so the same aggregator call and the same response, as the same request with
`period=today`, for the same collaborators and the same clock; with a valid
active key in period mode that response is the one built from the aggregator
result for the range from the start of today to now, so the period value
causes no error. -/
theorem usage_unrecognized_period (h : PublicHandler) (tz : Helper) (c : Context)
    (ht : c.DefaultQuery "period" "today" ≠ "today")
    (hw : c.DefaultQuery "period" "today" ≠ "week")
    (hm : c.DefaultQuery "period" "today" ≠ "month") :
    h.Usage tz c = h.Usage tz (c.withParam "period" "today") ∧
    aggregatorCalls (h.Usage tz c) =
      aggregatorCalls (h.Usage tz (c.withParam "period" "today")) ∧
    responses (h.Usage tz c) = responses (h.Usage tz (c.withParam "period" "today")) ∧
    (∀ k, c.Query "key" ≠ "" → h.apiKeyService.GetByKey (c.Query "key") = .ok k →
      k.IsActive = true → (c.Query "start_date" = "" ∨ c.Query "end_date" = "") →
      h.Usage tz c =
        [.GetByKey (c.Query "key"),
         .GetDetailedStatsByAPIKey k.ID
           (tz.StartOfDayInUserLocation (tz.NowInUserLocation (c.Query "timezone"))
             (c.Query "timezone"))
           (tz.NowInUserLocation (c.Query "timezone")),
         .Respond (statsResponse (h.usageService.GetDetailedStatsByAPIKey k.ID
           (tz.StartOfDayInUserLocation (tz.NowInUserLocation (c.Query "timezone"))
             (c.Query "timezone"))
           (tz.NowInUserLocation (c.Query "timezone"))))]) := by
  have heq : h.Usage tz (c.withParam "period" "today") = h.Usage tz c :=
    Usage_active_congr h tz c _ (Query_withParam_ne c _ _ _ (by decide))
      (resolveRange_fallback tz c hw hm)
  refine ⟨heq.symm, by rw [heq], by rw [heq], ?_⟩
  intro k hkey hget hact hmode
  rw [Usage_active h tz c k hkey hget hact, resolveRange_period tz c hmode]
  simp only [ht, hw, hm, if_false]

/-! ## Success payload -/

/-- C7: whenever the aggregator, called by the handler, returns statistics
without error, the handler answers with the single response `Success` whose
nine fields equal the aggregator's fields of the same name, and the aggregator
was called with the ID of the key that the lookup returned. -/
theorem usage_success_payload (h : PublicHandler) (tz : Helper) (c : Context)
    (i : Int) (s e : Time) (stats : UsageStats)
    (hcall : (i, s, e) ∈ aggregatorCalls (h.Usage tz c))
    (hok : h.usageService.GetDetailedStatsByAPIKey i s e = .ok stats) :
    ∃ resp : PublicUsageStatsResponse,
      responses (h.Usage tz c) = [.Success resp] ∧
      resp.TotalRequests = stats.TotalRequests ∧
      resp.TotalInputTokens = stats.TotalInputTokens ∧
      resp.TotalOutputTokens = stats.TotalOutputTokens ∧
      resp.TotalCacheCreationTokens = stats.TotalCacheCreationTokens ∧
      resp.TotalCacheReadTokens = stats.TotalCacheReadTokens ∧
      resp.TotalTokens = stats.TotalTokens ∧
      resp.TotalCost = stats.TotalCost ∧
      resp.TotalActualCost = stats.TotalActualCost ∧
      resp.AverageDurationMs = stats.AverageDurationMs ∧
      ∃ k, h.apiKeyService.GetByKey (c.Query "key") = .ok k ∧ k.ID = i := by
  rcases Usage_cases h tz c with ⟨_, hu⟩ | ⟨_, _, _, hu⟩ | ⟨_, _, _, _, hu⟩ |
    ⟨_, _, _, _, _, _, hu⟩ | ⟨_, k, hget, _, s', e', _, hu⟩
  · rw [hu] at hcall; simp [aggregatorCalls] at hcall
  · rw [hu] at hcall; simp [aggregatorCalls] at hcall
  · rw [hu] at hcall; simp [aggregatorCalls] at hcall
  · rw [hu] at hcall; simp [aggregatorCalls] at hcall
  · rw [hu] at hcall
    simp only [aggregatorCalls, List.mem_singleton, Prod.mk.injEq] at hcall
    obtain ⟨hi, hs, he⟩ := hcall
    subst hi hs he
    rw [hu, hok]
    exact ⟨buildResponse stats, by simp [responses, statsResponse],
      rfl, rfl, rfl, rfl, rfl, rfl, rfl, rfl, rfl, k, hget, rfl⟩

/-! ## Activation of custom-range mode -/

/-- In custom-range mode the resolved range does not depend on `period`. -/
theorem resolveRange_custom_period (tz : Helper) (c c' : Context)
    (htz : c'.Query "timezone" = c.Query "timezone")
    (hs' : c'.Query "start_date" = c.Query "start_date")
    (he' : c'.Query "end_date" = c.Query "end_date")
    (hs : c.Query "start_date" ≠ "") (he : c.Query "end_date" ≠ "") :
    resolveRange tz c' = resolveRange tz c := by
  rw [resolveRange_custom tz c hs he,
    resolveRange_custom tz c' (by rw [hs']; exact hs) (by rw [he']; exact he), htz, hs', he']

/-- In period mode the resolved range does not depend on the dates. -/
theorem resolveRange_period_dates (tz : Helper) (c c' : Context)
    (htz : c'.Query "timezone" = c.Query "timezone")
    (hp : c'.DefaultQuery "period" "today" = c.DefaultQuery "period" "today")
    (hmode : c.Query "start_date" = "" ∨ c.Query "end_date" = "")
    (hmode' : c'.Query "start_date" = "" ∨ c'.Query "end_date" = "") :
    resolveRange tz c' = resolveRange tz c := by
  rw [resolveRange_period tz c hmode, resolveRange_period tz c' hmode', htz, hp]

theorem statsResponse_ne_BadRequest (x : Except GoError UsageStats) (msg : String) :
    statsResponse x ≠ .BadRequest msg := by
  cases x <;> simp [statsResponse]

/-- C8: custom-range mode needs both dates.  When exactly one of `start_date`
and `end_date` is non-empty, the handler acts exactly as on the request with
both dates removed: the supplied date is not parsed, the range is the one
resolved from `period`, and with a valid active key no bad-request response is
written, whatever the date parser of `tz` does with the supplied value.  When both are non-empty, setting
`period` to any value, or removing it, changes nothing. -/
theorem usage_custom_range_needs_both (h : PublicHandler) (tz : Helper) (c : Context) :
    ((c.Query "start_date" = "" ∧ c.Query "end_date" ≠ "") ∨
      (c.Query "start_date" ≠ "" ∧ c.Query "end_date" = "") →
      h.Usage tz c = h.Usage tz ((c.without "start_date").without "end_date") ∧
      (∀ k, c.Query "key" ≠ "" → h.apiKeyService.GetByKey (c.Query "key") = .ok k →
        k.IsActive = true →
        ∀ msg, Action.Respond (.BadRequest msg) ∉ h.Usage tz c)) ∧
    (c.Query "start_date" ≠ "" → c.Query "end_date" ≠ "" →
      (∀ p, h.Usage tz (c.withParam "period" p) = h.Usage tz c) ∧
      h.Usage tz (c.without "period") = h.Usage tz c) := by
  constructor
  · intro hone
    have hmode : c.Query "start_date" = "" ∨ c.Query "end_date" = "" := by
      rcases hone with ⟨h1, _⟩ | ⟨_, h2⟩
      · exact Or.inl h1
      · exact Or.inr h2
    constructor
    · symm
      apply Usage_active_congr
      · rw [Query_without_ne _ _ _ (by decide), Query_without_ne _ _ _ (by decide)]
      · apply resolveRange_period_dates tz c _ _ _ hmode
        · exact Or.inr (Query_without_self _ _)
        · rw [Query_without_ne _ _ _ (by decide), Query_without_ne _ _ _ (by decide)]
        · rw [DefaultQuery_without_ne _ _ _ _ (by decide),
            DefaultQuery_without_ne _ _ _ _ (by decide)]
    · intro k hkey hget hact msg
      rw [Usage_active h tz c k hkey hget hact, resolveRange_period tz c hmode]
      simp only [List.mem_cons, List.mem_singleton, Action.Respond.injEq, false_or,
        List.not_mem_nil, or_false, reduceCtorEq]
      exact fun hbad => statsResponse_ne_BadRequest _ msg hbad.symm
  · intro hs he
    constructor
    · intro p
      apply Usage_active_congr
      · exact Query_withParam_ne c _ _ _ (by decide)
      · exact resolveRange_custom_period tz c _ (Query_withParam_ne c _ _ _ (by decide))
          (Query_withParam_ne c _ _ _ (by decide)) (Query_withParam_ne c _ _ _ (by decide)) hs he
    · apply Usage_active_congr
      · exact Query_without_ne c _ _ (by decide)
      · exact resolveRange_custom_period tz c _ (Query_without_ne c _ _ (by decide))
          (Query_without_ne c _ _ (by decide)) (Query_without_ne c _ _ (by decide)) hs he

/-! ## One terminal response -/

/-- C9: for every request and every behaviour of the two services, the handler
writes exactly one response, as its last action, and calls the aggregator at
most once; when the aggregator call returns an error, that one response is the
error response built from it, so no success payload is written. -/
theorem usage_single_response (h : PublicHandler) (tz : Helper) (c : Context) :
    (responses (h.Usage tz c)).length = 1 ∧
    (∃ pre r, h.Usage tz c = pre ++ [.Respond r] ∧ responses pre = []) ∧
    (aggregatorCalls (h.Usage tz c)).length ≤ 1 ∧
    (∀ i s e err, (i, s, e) ∈ aggregatorCalls (h.Usage tz c) →
      h.usageService.GetDetailedStatsByAPIKey i s e = .error err →
      responses (h.Usage tz c) = [.ErrorFrom err] ∧
      ∀ resp, Action.Respond (.Success resp) ∉ h.Usage tz c) := by
  rcases Usage_cases h tz c with ⟨_, hu⟩ | ⟨_, _, _, hu⟩ | ⟨_, _, _, _, hu⟩ |
    ⟨_, _, _, _, _, _, hu⟩ | ⟨_, k, hget, _, s', e', _, hu⟩
  · rw [hu]
    exact ⟨rfl, ⟨[], _, rfl, rfl⟩, by simp [aggregatorCalls], by simp [aggregatorCalls]⟩
  · rw [hu]
    exact ⟨rfl, ⟨[_], _, rfl, rfl⟩, by simp [aggregatorCalls], by simp [aggregatorCalls]⟩
  · rw [hu]
    exact ⟨rfl, ⟨[_], _, rfl, rfl⟩, by simp [aggregatorCalls], by simp [aggregatorCalls]⟩
  · rw [hu]
    exact ⟨rfl, ⟨[_], _, rfl, rfl⟩, by simp [aggregatorCalls], by simp [aggregatorCalls]⟩
  · rw [hu]
    refine ⟨rfl, ⟨[_, _], _, rfl, rfl⟩, by simp [aggregatorCalls], ?_⟩
    intro i s e err hcall herr
    simp only [aggregatorCalls, List.mem_singleton, Prod.mk.injEq] at hcall
    obtain ⟨hi, hs, he⟩ := hcall
    subst hi hs he
    rw [herr]
    simp [responses, statsResponse]

/-! ## Range of a custom request -/

/-- In custom-range mode with two dates that parse, the aggregator is called
with the instant parsed for `start_date` and with the instant parsed for
`end_date` plus 24 hours minus one nanosecond. -/
theorem usage_custom_range (h : PublicHandler) (tz : Helper) (c : Context) (k : APIKey)
    (startTime endTime : Time)
    (hkey : c.Query "key" ≠ "")
    (hget : h.apiKeyService.GetByKey (c.Query "key") = .ok k)
    (hact : k.IsActive = true)
    (hs : c.Query "start_date" ≠ "") (he : c.Query "end_date" ≠ "")
    (hps : tz.ParseInUserLocation "2006-01-02" (c.Query "start_date") (c.Query "timezone")
      = .ok startTime)
    (hpe : tz.ParseInUserLocation "2006-01-02" (c.Query "end_date") (c.Query "timezone")
      = .ok endTime) :
    aggregatorCalls (h.Usage tz c) =
      [(k.ID, startTime, endTime.Add (24 * Hour - Nanosecond))] := by
  rw [Usage_active h tz c k hkey hget hact, resolveRange_custom tz c hs he, hps, hpe]
  rfl

/-- C3: the custom range that ends on 2024-11-03 in `America/New_York`, the
day on which daylight time ends there.  The handler passes to the aggregator
the start of 2024-11-01 (04:00:00Z) and, as end, the start of 2024-11-03 plus
24 hours minus one nanosecond, which is 2024-11-04T03:59:59.999999999Z; the
next calendar day, 2024-11-04, starts at 05:00:00Z in that zone, so the end
passed is one hour earlier than that start minus one nanosecond.  For the
range 2024-01-01 to 2024-01-31 in UTC the end passed is the start of
2024-02-01 minus one nanosecond. -/
theorem usage_custom_range_end_on_long_day :
    aggregatorCalls (sample.publicHandler.Usage sample.world.helper sample.longDayRequest) =
      [(42, ⟨1730433600000000000, sample.newYork⟩, ⟨1730692799999999999, sample.newYork⟩)] ∧
    sample.world.helper.ParseInUserLocation "2006-01-02" "2024-11-01" "America/New_York" =
      .ok ⟨1730433600000000000, sample.newYork⟩ ∧
    sample.world.helper.ParseInUserLocation "2006-01-02" "2024-11-04" "America/New_York" =
      .ok ⟨1730696400000000000, sample.newYork⟩ ∧
    (Time.mk 1730692799999999999 sample.newYork) ≠
      (Time.mk 1730696400000000000 sample.newYork).Add (-Nanosecond) ∧
    (Time.mk 1730692799999999999 sample.newYork).Add Hour =
      (Time.mk 1730696400000000000 sample.newYork).Add (-Nanosecond) ∧
    aggregatorCalls (sample.publicHandler.Usage sample.world.helper sample.januaryRequest) =
      [(42, ⟨1704067200000000000, UTC⟩, ⟨1706745599999999999, UTC⟩)] ∧
    sample.world.helper.ParseInUserLocation "2006-01-02" "2024-02-01" "" =
      .ok ⟨1706745600000000000, UTC⟩ ∧
    (Time.mk 1706745599999999999 UTC) = (Time.mk 1706745600000000000 UTC).Add (-Nanosecond) := by
  decide

/-! ## Ordering of the range -/

/-- C10: custom-range mode does not compare the two dates: the request with
`start_date=2024-01-31` and `end_date=2024-01-01` for a valid active key gets
no bad-request response, and the aggregator is called with a start instant
after the end instant.  In period mode the start instant is never after the
end instant, given that the start of the day of now is not after now; the
location of now is taken to have all its offsets within a day of UTC. -/
theorem usage_range_ordering :
    (∃ (c : Context) (k : APIKey) (s e : Time),
      c.Query "start_date" = "2024-01-31" ∧ c.Query "end_date" = "2024-01-01" ∧
      sample.publicHandler.apiKeyService.GetByKey (c.Query "key") = .ok k ∧
      k.IsActive = true ∧
      aggregatorCalls (sample.publicHandler.Usage sample.world.helper c) = [(k.ID, s, e)] ∧
      s.After e = true ∧
      (∀ msg, Action.Respond (.BadRequest msg) ∉
        sample.publicHandler.Usage sample.world.helper c)) ∧
    (∀ (h : PublicHandler) (tz : Helper) (c : Context) (i : Int) (s e : Time),
      (c.Query "start_date" = "" ∨ c.Query "end_date" = "") →
      (i, s, e) ∈ aggregatorCalls (h.Usage tz c) →
      (tz.NowInUserLocation (c.Query "timezone")).loc.offsetsWithin 86400 = true →
      (tz.StartOfDayInUserLocation (tz.NowInUserLocation (c.Query "timezone"))
        (c.Query "timezone")).After (tz.NowInUserLocation (c.Query "timezone")) = false →
      s.After e = false) := by
  constructor
  · refine ⟨sample.reversedRequest, ⟨42, "sk-live", .active⟩,
      ⟨1706659200000000000, UTC⟩, ⟨1704153599999999999, UTC⟩,
      by decide, by decide, by decide, by decide, by decide, by decide, ?_⟩
    intro msg hmem
    have hu : sample.publicHandler.Usage sample.world.helper sample.reversedRequest =
        [.GetByKey "sk-live",
         .GetDetailedStatsByAPIKey 42 ⟨1706659200000000000, UTC⟩ ⟨1704153599999999999, UTC⟩,
         .Respond (.Success (buildResponse sample.stats))] := by decide
    rw [hu] at hmem
    simp at hmem
  · intro h tz c i s e hmode hcall hloc hday
    rcases Usage_cases h tz c with ⟨_, hu⟩ | ⟨_, _, _, hu⟩ | ⟨_, _, _, _, hu⟩ |
      ⟨_, _, _, _, _, _, hu⟩ | ⟨_, k, hget, _, s2, e2, hr, hu⟩
    · rw [hu] at hcall; simp [aggregatorCalls] at hcall
    · rw [hu] at hcall; simp [aggregatorCalls] at hcall
    · rw [hu] at hcall; simp [aggregatorCalls] at hcall
    · rw [hu] at hcall; simp [aggregatorCalls] at hcall
    · rw [hu] at hcall
      simp only [aggregatorCalls, List.mem_singleton, Prod.mk.injEq] at hcall
      obtain ⟨_, hs, he⟩ := hcall
      subst hs he
      rw [resolveRange_period tz c hmode] at hr
      simp only [Except.ok.injEq, Prod.mk.injEq] at hr
      obtain ⟨hs, he⟩ := hr
      subst he
      simp only [Time.After, decide_eq_false_iff_not, not_lt] at hday ⊢
      have hweek := Time.AddDate_week_le (tz.NowInUserLocation (c.Query "timezone")) hloc
      have hmonth := Time.AddDate_month_le (tz.NowInUserLocation (c.Query "timezone")) hloc
      rw [← hs]
      split
      · exact hday
      · split
        · exact hweek
        · split
          · exact hmonth
          · exact hday

end handler
namespace handler

open time gin service response timezone

/-! ## Instances on the sample collaborators -/

/-- C1 on a request without `key`. -/
theorem usage_key_required_witness :
    (sample.noKeyRequest.GetQuery "key" = none ∨ sample.noKeyRequest.GetQuery "key" = some "") ∧
    sample.publicHandler.Usage sample.world.helper sample.noKeyRequest =
      [.Respond (.BadRequest "API key is required")] :=
  ⟨Or.inl (by decide),
    (usage_key_required sample.publicHandler sample.world.helper sample.noKeyRequest
      (fun _ => 500) (Or.inl (by decide))).1⟩

/-- C2 on a request with an unknown key and on one with an inactive key. -/
theorem usage_key_not_found_or_inactive_witness :
    sample.unknownKeyRequest.Query "key" ≠ "" ∧
    sample.publicHandler.Usage sample.world.helper sample.unknownKeyRequest =
      [.GetByKey "sk-gone", .Respond (.NotFound "API key not found")] ∧
    sample.inactiveKeyRequest.Query "key" ≠ "" ∧
    sample.publicHandler.Usage sample.world.helper sample.inactiveKeyRequest =
      [.GetByKey "sk-old", .Respond (.BadRequest "API key is not active")] :=
  ⟨by decide,
    ((usage_key_not_found_or_inactive sample.publicHandler sample.world.helper
      sample.unknownKeyRequest (fun _ => 500) (by decide)).1
        ⟨"record not found"⟩ (by decide)).1,
    by decide,
    ((usage_key_not_found_or_inactive sample.publicHandler sample.world.helper
      sample.inactiveKeyRequest (fun _ => 500) (by decide)).2
        ⟨7, "sk-old", .inactive⟩ (by decide) (by decide)).1⟩

/-- C4 on a request whose `start_date` is `2024/01/01`. -/
theorem usage_invalid_date_witness :
    sample.badStartRequest.Query "key" ≠ "" ∧
    sample.publicHandler.apiKeyService.GetByKey (sample.badStartRequest.Query "key") =
      .ok ⟨42, "sk-live", .active⟩ ∧
    sample.badStartRequest.Query "start_date" = "2024/01/01" ∧
    sample.badStartRequest.Query "end_date" ≠ "" ∧
    sample.world.helper.ParseInUserLocation "2006-01-02" "2024/01/01" "" =
      .error ⟨"cannot parse separator"⟩ ∧
    sample.publicHandler.Usage sample.world.helper sample.badStartRequest =
      [.GetByKey "sk-live",
       .Respond (.BadRequest "Invalid start_date format, use YYYY-MM-DD")] :=
  ⟨by decide, by decide, by decide, by decide, by decide,
    ((usage_invalid_date sample.publicHandler sample.world.helper sample.badStartRequest
      ⟨42, "sk-live", .active⟩ (fun _ => 500) (by decide) (by decide) (by decide) (by decide)
      (by decide)).1 ⟨"cannot parse separator"⟩ (by decide)).1⟩

/-- C5 on a request with `period=week` in `America/New_York`. -/
theorem usage_period_range_witness :
    sample.weekRequest.Query "key" ≠ "" ∧
    sample.publicHandler.apiKeyService.GetByKey (sample.weekRequest.Query "key") =
      .ok ⟨42, "sk-live", .active⟩ ∧
    (sample.weekRequest.Query "start_date" = "" ∨ sample.weekRequest.Query "end_date" = "") ∧
    sample.weekRequest.GetQuery "period" = some "week" ∧
    ∃ start,
      aggregatorCalls (sample.publicHandler.Usage sample.world.helper sample.weekRequest) =
        [(42, start, ⟨1730647800500000000, sample.newYork⟩)] ∧
      start = (Time.mk 1730647800500000000 sample.newYork).AddDate 0 0 (-7) := by
  refine ⟨by decide, by decide, Or.inl (by decide), by decide, ?_⟩
  obtain ⟨start, hcall, _, hweek, _⟩ :=
    usage_period_range sample.publicHandler sample.world.helper sample.weekRequest
      ⟨42, "sk-live", .active⟩ (by decide) (by decide) (by decide) (Or.inl (by decide))
  exact ⟨start, hcall, hweek (by decide)⟩

/-- C6 on a request with `period=bogus` and on one with an empty `period`. -/
theorem usage_unrecognized_period_witness :
    sample.bogusPeriodRequest.DefaultQuery "period" "today" = "bogus" ∧
    sample.publicHandler.Usage sample.world.helper sample.bogusPeriodRequest =
      sample.publicHandler.Usage sample.world.helper
        (sample.bogusPeriodRequest.withParam "period" "today") ∧
    sample.emptyPeriodRequest.DefaultQuery "period" "today" = "" ∧
    sample.publicHandler.Usage sample.world.helper sample.emptyPeriodRequest =
      sample.publicHandler.Usage sample.world.helper
        (sample.emptyPeriodRequest.withParam "period" "today") :=
  ⟨by decide,
    (usage_unrecognized_period sample.publicHandler sample.world.helper
      sample.bogusPeriodRequest (by decide) (by decide) (by decide)).1,
    by decide,
    (usage_unrecognized_period sample.publicHandler sample.world.helper
      sample.emptyPeriodRequest (by decide) (by decide) (by decide)).1⟩

/-- C7 on a custom-range request answered by the sample aggregator. -/
theorem usage_success_payload_witness :
    (42, Time.mk 1730433600000000000 sample.newYork,
        Time.mk 1730692799999999999 sample.newYork) ∈
      aggregatorCalls (sample.publicHandler.Usage sample.world.helper sample.longDayRequest) ∧
    sample.publicHandler.usageService.GetDetailedStatsByAPIKey 42
      ⟨1730433600000000000, sample.newYork⟩ ⟨1730692799999999999, sample.newYork⟩ =
        .ok sample.stats ∧
    ∃ resp : PublicUsageStatsResponse,
      responses (sample.publicHandler.Usage sample.world.helper sample.longDayRequest) =
        [.Success resp] ∧
      resp.TotalRequests = 10 ∧ resp.TotalTokens = 590 ∧ resp.TotalCost = ⟨1⟩ := by
  refine ⟨by decide, by decide, ?_⟩
  obtain ⟨resp, hr, h1, _, _, _, _, h6, h7, _⟩ :=
    usage_success_payload sample.publicHandler sample.world.helper sample.longDayRequest 42
      ⟨1730433600000000000, sample.newYork⟩ ⟨1730692799999999999, sample.newYork⟩
      sample.stats (by decide) (by decide)
  exact ⟨resp, hr, h1, h6, h7⟩

/-- C8 on a request with `start_date` alone and on one with both dates. -/
theorem usage_custom_range_needs_both_witness :
    (sample.oneDateRequest.Query "start_date" ≠ "" ∧
      sample.oneDateRequest.Query "end_date" = "") ∧
    sample.publicHandler.Usage sample.world.helper sample.oneDateRequest =
      sample.publicHandler.Usage sample.world.helper
        ((sample.oneDateRequest.without "start_date").without "end_date") ∧
    (sample.longDayRequest.Query "start_date" ≠ "" ∧
      sample.longDayRequest.Query "end_date" ≠ "") ∧
    sample.publicHandler.Usage sample.world.helper
        (sample.longDayRequest.withParam "period" "month") =
      sample.publicHandler.Usage sample.world.helper sample.longDayRequest :=
  ⟨⟨by decide, by decide⟩,
    ((usage_custom_range_needs_both sample.publicHandler sample.world.helper
      sample.oneDateRequest).1 (Or.inr ⟨by decide, by decide⟩)).1,
    ⟨by decide, by decide⟩,
    ((usage_custom_range_needs_both sample.publicHandler sample.world.helper
      sample.longDayRequest).2 (by decide) (by decide)).1 "month"⟩

/-- C9 on a request whose aggregator call fails. -/
theorem usage_single_response_witness :
    (42, Time.mk 1730433600000000000 sample.newYork,
        Time.mk 1730692799999999999 sample.newYork) ∈
      aggregatorCalls (sample.brokenHandler.Usage sample.world.helper sample.longDayRequest) ∧
    sample.brokenHandler.usageService.GetDetailedStatsByAPIKey 42
      ⟨1730433600000000000, sample.newYork⟩ ⟨1730692799999999999, sample.newYork⟩ =
        .error ⟨"database unavailable"⟩ ∧
    responses (sample.brokenHandler.Usage sample.world.helper sample.longDayRequest) =
      [.ErrorFrom ⟨"database unavailable"⟩] :=
  ⟨by decide, by decide,
    ((usage_single_response sample.brokenHandler sample.world.helper
      sample.longDayRequest).2.2.2 42 ⟨1730433600000000000, sample.newYork⟩
      ⟨1730692799999999999, sample.newYork⟩ ⟨"database unavailable"⟩
      (by decide) (by decide)).1⟩

/-- C10 on a request with `period=week` in `America/New_York`. -/
theorem usage_range_ordering_witness :
    (sample.weekRequest.Query "start_date" = "" ∨ sample.weekRequest.Query "end_date" = "") ∧
    (42, Time.mk 1730039400500000000 sample.newYork,
        Time.mk 1730647800500000000 sample.newYork) ∈
      aggregatorCalls (sample.publicHandler.Usage sample.world.helper sample.weekRequest) ∧
    (sample.world.helper.NowInUserLocation
      (sample.weekRequest.Query "timezone")).loc.offsetsWithin 86400 = true ∧
    (sample.world.helper.StartOfDayInUserLocation
      (sample.world.helper.NowInUserLocation (sample.weekRequest.Query "timezone"))
      (sample.weekRequest.Query "timezone")).After
        (sample.world.helper.NowInUserLocation (sample.weekRequest.Query "timezone")) = false ∧
    (Time.mk 1730039400500000000 sample.newYork).After
      (Time.mk 1730647800500000000 sample.newYork) = false :=
  ⟨Or.inl (by decide), by decide, by decide, by decide,
    usage_range_ordering.2 sample.publicHandler sample.world.helper sample.weekRequest 42
      ⟨1730039400500000000, sample.newYork⟩ ⟨1730647800500000000, sample.newYork⟩
      (Or.inl (by decide)) (by decide) (by decide) (by decide)⟩

end handler

end Sub2api
